import Mathlib

/-!
Shallow embedding of the Role-Request-Voting core (config.py, request.py,
app.py). Python floats are embedded as exact rationals (`Rat`); the
acceptance thresholds and tallies occurring in the claims are decimal
values on which the float and rational comparisons agree. Python dicts
are embedded as association lists with Python dict update semantics
(overwrite keeps position, new keys append). The wall clock read by
`from_dict` is passed in as an explicit `now : Int` parameter.
-/

namespace RoleVoting

/-- config.py: the `Role` dataclass. -/
structure Role where
  name : String
  votes : Int
  percent_accept : Rat
  can_be_voted_on : Bool := true
  ignore_vote_weight : Bool := false
  command_whitelisted : Bool := false
deriving DecidableEq

/-- config.py: `DEFAULT_VOTE = 1`. The decimal float literals 0.5, 0.75,
0.9, 0.66 of config.py are embedded as the exact rationals
`mkRat 5 10`, `mkRat 75 100`, `mkRat 9 10`, `mkRat 66 100`. -/
def DEFAULT_VOTE : Int := 1

/-- config.py: the `ROLES` list, value for value. -/
def ROLES : List Role := [
  { name := "Excelsior", votes := DEFAULT_VOTE, percent_accept := 0,
    can_be_voted_on := false, ignore_vote_weight := false, command_whitelisted := false },
  { name := "Adept", votes := 2, percent_accept := mkRat 5 10 },
  { name := "Expert", votes := 3, percent_accept := mkRat 75 100 },
  { name := "Paragon", votes := 4, percent_accept := mkRat 9 10, command_whitelisted := true },
  { name := "Artisan", votes := DEFAULT_VOTE, percent_accept := mkRat 66 100, ignore_vote_weight := true },
  { name := "Visionary", votes := DEFAULT_VOTE, percent_accept := mkRat 75 100 },
  { name := "Custodian (admin)", votes := DEFAULT_VOTE, percent_accept := 0,
    can_be_voted_on := false, command_whitelisted := true },
  { name := "Sentinel (mod)", votes := DEFAULT_VOTE, percent_accept := 0,
    can_be_voted_on := false, command_whitelisted := true }]

/-- config.py: `VALID_ROLES` — names of roles that can be voted on. -/
def VALID_ROLES : List String := (ROLES.filter (fun r => r.can_be_voted_on)).map (fun r => r.name)

/-- config.py: `ACCEPTANCE_THRESHOLDS` — dict from votable role name to threshold. -/
def ACCEPTANCE_THRESHOLDS : List (String × Rat) :=
  (ROLES.filter (fun r => r.can_be_voted_on)).map (fun r => (r.name, r.percent_accept))

/-- config.py: `IGNORE_VOTE_WEIGHT` — votable roles that ignore vote weight. -/
def IGNORE_VOTE_WEIGHT : List String :=
  (ROLES.filter (fun r => r.ignore_vote_weight && r.can_be_voted_on)).map (fun r => r.name)

/-- Dict lookup `ACCEPTANCE_THRESHOLDS[role]`, `none` standing for a KeyError. -/
def thresholdFor (role : String) : Option Rat :=
  (ACCEPTANCE_THRESHOLDS.find? (fun p => p.1 == role)).map (fun p => p.2)

/-- Case-normalisation used to embed `re.search(..., re.IGNORECASE)`:
the role-name patterns are plain ASCII words, so the regex search is a
case-insensitive substring test. -/
def lowerChars (s : String) : List Char := s.data.map Char.toLower

/-- Does `pat` occur at the head of the second list? -/
def leadMatch : List Char → List Char → Bool
  | _, [] => true
  | [], _ :: _ => false
  | a :: as, b :: bs => a == b && leadMatch as bs

/-- Does `pat` occur contiguously anywhere in the list? -/
def occursIn (pat : List Char) : List Char → Bool
  | [] => leadMatch [] pat
  | a :: as => leadMatch (a :: as) pat || occursIn pat as

/-- request.py line 41: `re.search(role, self.title, re.IGNORECASE)` is not None. -/
def searchCI (pat title : String) : Bool := occursIn (lowerChars pat) (lowerChars title)

/-- The two exceptions `RoleRequest.__init__` can raise: the explicit
`ValueError("Invalid role.")` of line 46, and the uncaught `KeyError`
of the dict subscript on line 48. -/
inductive InitError where
  | invalidRole
  | keyError
deriving DecidableEq

/-- request.py: the state of a `RoleRequest` instance. -/
structure RoleRequest where
  user_id : Int
  thread_id : Int
  title : String
  end_time : Int
  bot_message_id : Option Int
  role : String
  yes_votes : List (Int × Int)
  no_votes : List (Int × Int)
  feedback : List (Int × String)
  num_users : Nat
  veto : Option (Int × Bool)
  ignore_vote_weight : Bool
  threshold : Rat
  closed : Bool
deriving DecidableEq

/-- request.py lines 6-49: `RoleRequest.__init__`. Python treats both
`None` and `""` as falsy in `if not self.role`, so an empty explicit
role also triggers the title scan. The `for ... else` loop takes the
first entry of `VALID_ROLES` found in the title, else raises
`ValueError`; then line 48 looks the resolved role up in
`ACCEPTANCE_THRESHOLDS` (a KeyError when absent). -/
def RoleRequest.create (user_id thread_id : Int) (title : String) (end_time : Int)
    (role : Option String) : Except InitError RoleRequest :=
  let role0 : Option String := match role with
    | none => none
    | some s => if s = "" then none else some s
  let resolved : Except InitError String := match role0 with
    | some s => Except.ok s
    | none =>
      match VALID_ROLES.find? (fun v => searchCI v title) with
      | some v => Except.ok v
      | none => Except.error InitError.invalidRole
  match resolved with
  | Except.error e => Except.error e
  | Except.ok rol =>
    match thresholdFor rol with
    | none => Except.error InitError.keyError
    | some th => Except.ok {
        user_id := user_id, thread_id := thread_id, title := title, end_time := end_time,
        bot_message_id := none, role := rol,
        yes_votes := [], no_votes := [], feedback := [],
        num_users := 0, veto := none,
        ignore_vote_weight := IGNORE_VOTE_WEIGHT.contains rol,
        threshold := th, closed := false }

/-- request.py lines 148-150: `_update_usercount` (Lean identifiers cannot
begin with an underscore, hence the name). -/
def RoleRequest.update_usercount (r : RoleRequest) : RoleRequest :=
  { r with num_users := r.yes_votes.length + r.no_votes.length }

/-- request.py lines 152-162: `has_voted`. -/
def RoleRequest.has_voted (r : RoleRequest) (user_id : Int) : Bool :=
  (r.yes_votes ++ r.no_votes).any (fun v => v.1 == user_id)

/-- request.py lines 80-98: `vote`. -/
def RoleRequest.vote (r : RoleRequest) (user_id votes : Int) : RoleRequest :=
  let votes := if r.ignore_vote_weight then (if votes < 0 then -1 else 1) else votes
  let r := if votes < 0 then
      { r with no_votes := r.no_votes ++ [(user_id, votes * -1)] }
    else
      { r with yes_votes := r.yes_votes ++ [(user_id, votes)] }
  r.update_usercount

/-- request.py lines 100-112: `vote_or_change`. -/
def RoleRequest.vote_or_change (r : RoleRequest) (user_id new_votes : Int) : RoleRequest :=
  let r := if r.has_voted user_id then
      { r with yes_votes := r.yes_votes.filter (fun v => v.1 != user_id),
               no_votes := r.no_votes.filter (fun v => v.1 != user_id) }
    else r
  r.vote user_id new_votes

/-- request.py lines 114-123: `remove_vote`. -/
def RoleRequest.remove_vote (r : RoleRequest) (user_id : Int) : RoleRequest :=
  ({ r with yes_votes := r.yes_votes.filter (fun v => v.1 != user_id),
            no_votes := r.no_votes.filter (fun v => v.1 != user_id) }).update_usercount

/-- request.py lines 125-134: `submit_feedback`. -/
def RoleRequest.submit_feedback (r : RoleRequest) (user_id : Int) (fb : String) : RoleRequest :=
  { r with feedback := r.feedback ++ [(user_id, fb)] }

/-- request.py lines 136-146: `get_votes` (the `or 0` is the identity on
integer sums, whose only falsy value is 0). -/
def RoleRequest.get_votes (r : RoleRequest) : Int × Int :=
  ((r.yes_votes.map (fun v => v.2)).sum, (r.no_votes.map (fun v => v.2)).sum)

/-- request.py lines 176-193: `result`. Integer division is Python float
division, embedded as exact rational division. -/
def RoleRequest.result (r : RoleRequest) : Bool :=
  match r.veto with
  | none =>
    let yes_count := r.get_votes.1
    let no_count := r.get_votes.2
    let total := yes_count + no_count
    decide ((yes_count : Rat) / (if 0 < total then (total : Rat) else 1) ≥ r.threshold)
  | some v => v.2

/-- The dictionary produced by request.py lines 195-216 `to_dict`. -/
structure RequestRecord where
  user_id : Int
  thread_id : Int
  title : String
  end_time : Int
  bot_message_id : Option Int
  role : String
  yes_votes : List (Int × Int)
  no_votes : List (Int × Int)
  feedback : List (Int × String)
  num_users : Nat
  veto : Option (Int × Bool)
  closed : Bool
deriving DecidableEq

/-- request.py lines 195-216: `to_dict`. -/
def RoleRequest.to_dict (r : RoleRequest) : RequestRecord :=
  { user_id := r.user_id, thread_id := r.thread_id, title := r.title,
    end_time := r.end_time, bot_message_id := r.bot_message_id, role := r.role,
    yes_votes := r.yes_votes, no_votes := r.no_votes, feedback := r.feedback,
    num_users := r.num_users, veto := r.veto, closed := r.closed }

/-- request.py lines 51-78: `from_dict`. Runs `__init__` with the stored
role, then overwrites the mutable fields. The `x or default` idioms are
the identity here ( `[] or []` is `[]`, `0 or 0` is `0` ). Line 76 sets
`closed` to the stored flag, or, when that flag is falsy, to
`int(end_time) > int(datetime.now(...).timestamp())`; the current clock
is the explicit parameter `now`. -/
def RoleRequest.from_dict (data : RequestRecord) (now : Int) : Except InitError RoleRequest :=
  match RoleRequest.create data.user_id data.thread_id data.title data.end_time
      (some data.role) with
  | Except.error e => Except.error e
  | Except.ok inst => Except.ok
      { inst with
        bot_message_id := data.bot_message_id,
        yes_votes := data.yes_votes,
        no_votes := data.no_votes,
        feedback := data.feedback,
        num_users := data.num_users,
        veto := data.veto,
        closed := data.closed || decide (data.end_time > now) }

/-- Python dict lookup `d[k]` / `d.get(k)`, as an association-list find. -/
def dget {α : Type} (d : List (Int × α)) (k : Int) : Option α :=
  (d.find? (fun p => p.1 == k)).map (fun p => p.2)

/-- Python dict assignment `d[k] = v`: overwrite in place when the key is
present, append otherwise. -/
def dset {α : Type} (d : List (Int × α)) (k : Int) (v : α) : List (Int × α) :=
  if (d.find? (fun p => p.1 == k)).isSome then
    d.map (fun p => if p.1 == k then (k, v) else p)
  else d ++ [(k, v)]

/-- Python `del d[k]`. -/
def ddel {α : Type} (d : List (Int × α)) (k : Int) : List (Int × α) :=
  d.filter (fun p => p.1 != k)

/-- app.py: the in-memory state of `RequestsManager` (the json
persistence side effects of `save_state` are outside the core). -/
structure RequestsManager where
  requests : List (Int × RoleRequest)
  closed_requests : List (Int × List RoleRequest)
deriving DecidableEq

/-- app.py lines 8-15: `__init__`. -/
def RequestsManager.empty : RequestsManager := { requests := [], closed_requests := [] }

/-- app.py lines 17-39: `add_request`. Constructs the `RoleRequest`
(propagating its exceptions), then stores it under `request.thread_id`
with plain dict assignment, and returns the thread id. -/
def RequestsManager.add_request (m : RequestsManager) (user_id thread_id : Int)
    (title : String) (end_time : Int) (role : Option String) :
    Except InitError (RequestsManager × Int) :=
  match RoleRequest.create user_id thread_id title end_time role with
  | Except.error e => Except.error e
  | Except.ok request =>
    Except.ok ({ m with requests := dset m.requests request.thread_id request },
      request.thread_id)

/-- app.py lines 104-118: `get_request` — `none` is the not-found sentinel. -/
def RequestsManager.get_request (m : RequestsManager) (request_id : Int) :
    Option RoleRequest :=
  dget m.requests request_id

/-- app.py lines 120-134: `get_closed_requests` — `none` when the thread
has no closed-request history. -/
def RequestsManager.get_closed_requests (m : RequestsManager) (thread_id : Int) :
    Option (List RoleRequest) :=
  dget m.closed_requests thread_id

/-- app.py lines 150-168: `close_request`. A missing id raises
`ValueError("Invalid request ID.")`, embedded as the error case. The
request object is flagged closed, appended to `closed_requests[id]`
(the list being created when absent), and deleted from `requests`. -/
def RequestsManager.close_request (m : RequestsManager) (request_id : Int) :
    Except String RequestsManager :=
  match dget m.requests request_id with
  | none => Except.error "Invalid request ID."
  | some req =>
    let req := { req with closed := true }
    let hist := match dget m.closed_requests request_id with
      | none => [req]
      | some l => l ++ [req]
    Except.ok { requests := ddel m.requests request_id,
                closed_requests := dset m.closed_requests request_id hist }

/-! ## Helper lemmas -/

/-- Every votable role name has an entry in the acceptance-threshold dict. -/
lemma thresholdFor_isSome_of_mem : ∀ ρ ∈ VALID_ROLES, (thresholdFor ρ).isSome := by decide

/-- Concrete request used as a witness input: a Paragon request (threshold
0.9) with tally (9, 1) and no veto. -/
def req91 : RoleRequest :=
  { user_id := 1, thread_id := 2, title := "Paragon please", end_time := 100,
    bot_message_id := none, role := "Paragon",
    yes_votes := [(10, 4), (11, 4), (12, 1)], no_votes := [(13, 1)],
    feedback := [], num_users := 4, veto := none,
    ignore_vote_weight := false, threshold := mkRat 9 10, closed := false }

/-- Concrete request used as a witness input: tally (0, 1000) with a veto
forcing the outcome to true. -/
def reqVeto : RoleRequest :=
  { user_id := 1, thread_id := 2, title := "Adept please", end_time := 100,
    bot_message_id := none, role := "Adept",
    yes_votes := [], no_votes := [(10, 1000)],
    feedback := [], num_users := 1, veto := some (5, true),
    ignore_vote_weight := false, threshold := mkRat 5 10, closed := false }

/-! ## Claims -/

/-- C1: with no veto set, `result()` returns true iff
`yes / total >= acceptanceThreshold`, where `(yes, no)` is the tally,
`total = yes + no`, and a zero total is replaced by denominator 1; with
zero votes cast it returns true exactly when the threshold is 0. The
hypotheses record that ballot weights are stored as magnitudes (all
nonnegative, as every code path that fills the ballots guarantees) and
that the configured threshold is nonnegative. -/
theorem result_no_veto_iff_ratio (r : RoleRequest)
    (hveto : r.veto = none)
    (hyes : ∀ p ∈ r.yes_votes, 0 ≤ p.2)
    (hno : ∀ p ∈ r.no_votes, 0 ≤ p.2)
    (hth : 0 ≤ r.threshold) :
    (r.result = true ↔
      (r.get_votes.1 : Rat) /
        (if r.get_votes.1 + r.get_votes.2 = 0 then 1
         else ((r.get_votes.1 + r.get_votes.2 : Int) : Rat)) ≥ r.threshold)
    ∧ (r.yes_votes = [] → r.no_votes = [] → (r.result = true ↔ r.threshold = 0)) := by
  have hyessum : (0 : Int) ≤ r.get_votes.1 := by
    apply List.sum_nonneg
    intro x hx
    rcases List.mem_map.mp hx with ⟨p, hp, rfl⟩
    exact hyes p hp
  have hnosum : (0 : Int) ≤ r.get_votes.2 := by
    apply List.sum_nonneg
    intro x hx
    rcases List.mem_map.mp hx with ⟨p, hp, rfl⟩
    exact hno p hp
  have hden : (if 0 < r.get_votes.1 + r.get_votes.2
        then ((r.get_votes.1 + r.get_votes.2 : Int) : Rat) else 1)
      = (if r.get_votes.1 + r.get_votes.2 = 0 then 1
        else ((r.get_votes.1 + r.get_votes.2 : Int) : Rat)) := by
    by_cases h : r.get_votes.1 + r.get_votes.2 = 0
    · simp [h]
    · have hpos : 0 < r.get_votes.1 + r.get_votes.2 := by omega
      simp [h, hpos]
  constructor
  · unfold RoleRequest.result
    rw [hveto]
    simp only [decide_eq_true_iff]
    rw [hden]
  · intro hy hn
    have hv : r.get_votes = (0, 0) := by simp [RoleRequest.get_votes, hy, hn]
    unfold RoleRequest.result
    rw [hveto]
    simp only [hv, decide_eq_true_iff]
    norm_num
    constructor
    · intro hle
      exact le_antisymm hle hth
    · intro h
      rw [h]

/-- Witness for C1 at the tie input: threshold 0.9, tally (9, 1), so
`9 / 10 >= 0.9` and the request is approved. -/
theorem result_no_veto_iff_ratio_witness : req91.result = true := by
  refine (result_no_veto_iff_ratio req91 rfl (by decide) (by decide) (by decide)).1.mpr ?_
  norm_num [req91, RoleRequest.get_votes, Rat.mkRat_eq_divInt, Rat.divInt_eq_div]

/-- C2: when `veto` is set to `(overriderId, forcedOutcome)`, `result()`
returns `forcedOutcome`, whatever the ballots hold. -/
theorem result_veto_short_circuits (r : RoleRequest) (u : Int) (b : Bool)
    (h : r.veto = some (u, b)) : r.result = b := by
  unfold RoleRequest.result
  rw [h]

/-- Witness for C2: tally (0, 1000) with veto `(5, true)` still decides true. -/
theorem result_veto_short_circuits_witness :
    reqVeto.get_votes = (0, 1000) ∧ reqVeto.result = true :=
  ⟨by decide, result_veto_short_circuits reqVeto 5 true rfl⟩

/-- C7: when the role argument is omitted, the resolved role is the first
name of the ordered `VALID_ROLES` list occurring case-insensitively in
the title (with threshold and weight flag looked up from it and every
other field fresh), and when no name occurs, construction fails with the
invalid-role error. -/
theorem create_resolves_role_from_title (u i : Int) (title : String) (t : Int) :
    (∀ ρ, VALID_ROLES.find? (fun v => searchCI v title) = some ρ →
      ∃ θ, thresholdFor ρ = some θ ∧
        RoleRequest.create u i title t none = Except.ok
          { user_id := u, thread_id := i, title := title, end_time := t,
            bot_message_id := none, role := ρ,
            yes_votes := [], no_votes := [], feedback := [],
            num_users := 0, veto := none,
            ignore_vote_weight := IGNORE_VOTE_WEIGHT.contains ρ,
            threshold := θ, closed := false })
    ∧ (VALID_ROLES.find? (fun v => searchCI v title) = none →
        RoleRequest.create u i title t none = Except.error InitError.invalidRole) := by
  constructor
  · intro ρ h
    have hmem : ρ ∈ VALID_ROLES := List.mem_of_find?_eq_some h
    have hsome : (thresholdFor ρ).isSome := thresholdFor_isSome_of_mem ρ hmem
    obtain ⟨θ, hθ⟩ := Option.isSome_iff_exists.mp hsome
    exact ⟨θ, hθ, by simp [RoleRequest.create, h, hθ]⟩
  · intro h
    simp [RoleRequest.create, h]

/-- Witness for C7: the title "Gimme Expert" resolves to the role
"Expert" with threshold 0.75. -/
theorem create_resolves_role_from_title_witness :
    ∃ θ, thresholdFor "Expert" = some θ ∧
      RoleRequest.create 1 2 "Gimme Expert" 9 none = Except.ok
        { user_id := 1, thread_id := 2, title := "Gimme Expert", end_time := 9,
          bot_message_id := none, role := "Expert",
          yes_votes := [], no_votes := [], feedback := [],
          num_users := 0, veto := none,
          ignore_vote_weight := IGNORE_VOTE_WEIGHT.contains "Expert",
          threshold := θ, closed := false } :=
  (create_resolves_role_from_title 1 2 "Gimme Expert" 9).1 "Expert" (by decide)

/-- C8: `vote` stores magnitude 1 (keeping only the direction) when the
request ignores vote weight, stores magnitude `|signedWeight|` otherwise,
and records a zero signed weight as a yes vote. -/
theorem vote_weight_semantics (r : RoleRequest) (u w : Int) :
    (r.ignore_vote_weight = true →
      (w < 0 → (r.vote u w).yes_votes = r.yes_votes
        ∧ (r.vote u w).no_votes = r.no_votes ++ [(u, 1)])
      ∧ (0 ≤ w → (r.vote u w).yes_votes = r.yes_votes ++ [(u, 1)]
        ∧ (r.vote u w).no_votes = r.no_votes))
    ∧ (r.ignore_vote_weight = false →
      (w < 0 → (r.vote u w).yes_votes = r.yes_votes
        ∧ (r.vote u w).no_votes = r.no_votes ++ [(u, |w|)])
      ∧ (0 ≤ w → (r.vote u w).yes_votes = r.yes_votes ++ [(u, |w|)]
        ∧ (r.vote u w).no_votes = r.no_votes)) := by
  constructor
  · intro hig
    constructor
    · intro hneg
      have h1 : ((-1 : Int) < 0) := by norm_num
      simp [RoleRequest.vote, RoleRequest.update_usercount, hig, hneg, h1]
    · intro hpos
      have h1 : ¬ (w < 0) := not_lt.mpr hpos
      simp [RoleRequest.vote, RoleRequest.update_usercount, hig, h1]
  · intro hig
    constructor
    · intro hneg
      have habs : w * -1 = |w| := by rw [abs_of_neg hneg]; ring
      simp [RoleRequest.vote, RoleRequest.update_usercount, hig, hneg, habs]
    · intro hpos
      have h1 : ¬ (w < 0) := not_lt.mpr hpos
      have habs : |w| = w := abs_of_nonneg hpos
      simp [RoleRequest.vote, RoleRequest.update_usercount, hig, h1, habs]

/-- Concrete request used as a witness input: an Artisan request, the
only role with `ignoreVoteWeight` true, with empty ballots. -/
def reqArtisan : RoleRequest :=
  { user_id := 1, thread_id := 2, title := "Artisan please", end_time := 100,
    bot_message_id := none, role := "Artisan",
    yes_votes := [], no_votes := [],
    feedback := [], num_users := 0, veto := none,
    ignore_vote_weight := true, threshold := mkRat 66 100, closed := false }

/-- Witness for C8: on an Artisan request (`ignoreVoteWeight` true, empty
ballots) a yes vote cast with weight 4 is stored as `(voter, 1)`. -/
theorem vote_weight_semantics_witness :
    (reqArtisan.vote 5 4).yes_votes = reqArtisan.yes_votes ++ [(5, 1)] :=
  (((vote_weight_semantics reqArtisan 5 4).1 rfl).2 (by norm_num)).1

/-- C10: an explicit non-empty role skips the title scan entirely — the
invalid-role path cannot fire — and a role absent from the
acceptance-threshold dict makes construction fail with the uncaught
KeyError, while a present role constructs the request unvalidated. -/
theorem create_explicit_role_unvalidated (u i : Int) (title : String) (t : Int)
    (ρ : String) (hne : ρ ≠ "") :
    (thresholdFor ρ = none →
      RoleRequest.create u i title t (some ρ) = Except.error InitError.keyError)
    ∧ (∀ θ, thresholdFor ρ = some θ →
      RoleRequest.create u i title t (some ρ) = Except.ok
        { user_id := u, thread_id := i, title := title, end_time := t,
          bot_message_id := none, role := ρ,
          yes_votes := [], no_votes := [], feedback := [],
          num_users := 0, veto := none,
          ignore_vote_weight := IGNORE_VOTE_WEIGHT.contains ρ,
          threshold := θ, closed := false }) := by
  constructor
  · intro h
    simp [RoleRequest.create, hne, h]
  · intro θ h
    simp [RoleRequest.create, hne, h]

/-- Witness for C10: "Excelsior" is a recognized platform role configured
as not votable, hence absent from the threshold dict; an arbitrary string
is likewise absent; both make construction fail with the KeyError, even
though the title mentions no role at all. -/
theorem create_explicit_role_unvalidated_witness :
    RoleRequest.create 1 2 "no role here" 3 (some "Excelsior")
        = Except.error InitError.keyError
    ∧ RoleRequest.create 1 2 "no role here" 3 (some "Banana")
        = Except.error InitError.keyError :=
  ⟨(create_explicit_role_unvalidated 1 2 "no role here" 3 "Excelsior" (by decide)).1 (by decide),
   (create_explicit_role_unvalidated 1 2 "no role here" 3 "Banana" (by decide)).1 (by decide)⟩

/-- The entries a given voter holds in the two ballots. -/
def votesFor (r : RoleRequest) (voter : Int) : List (Int × Int) × List (Int × Int) :=
  (r.yes_votes.filter (fun p => p.1 == voter), r.no_votes.filter (fun p => p.1 == voter))

/-- The weight `vote` actually stores: the sign alone when the request
ignores vote weight, the raw signed weight otherwise. -/
def normWeight (iw : Bool) (w : Int) : Int :=
  if iw then (if w < 0 then -1 else 1) else w

/-- Removing a voter by filter leaves no entry of that voter. -/
lemma filter_ne_then_eq_nil (l : List (Int × Int)) (v : Int) :
    (l.filter (fun p => p.1 != v)).filter (fun p => p.1 == v) = [] := by
  rw [List.filter_eq_nil_iff]
  intro a ha
  have h2 := (List.mem_filter.mp ha).2
  simp at h2 ⊢
  exact h2

/-- A single `vote_or_change` leaves the calling voter exactly one ballot
entry, built from that call alone. -/
lemma votesFor_vote_or_change (r : RoleRequest) (v w : Int) :
    votesFor (r.vote_or_change v w) v =
      (if normWeight r.ignore_vote_weight w < 0
       then ([], [(v, normWeight r.ignore_vote_weight w * -1)])
       else ([(v, normWeight r.ignore_vote_weight w)], [])) := by
  have base : ∀ r1 : RoleRequest,
      r1.yes_votes.filter (fun p => p.1 == v) = [] →
      r1.no_votes.filter (fun p => p.1 == v) = [] →
      r1.ignore_vote_weight = r.ignore_vote_weight →
      votesFor (r1.vote v w) v =
        (if normWeight r.ignore_vote_weight w < 0
         then ([], [(v, normWeight r.ignore_vote_weight w * -1)])
         else ([(v, normWeight r.ignore_vote_weight w)], [])) := by
    intro r1 hy hn hig
    unfold RoleRequest.vote
    rw [hig]
    by_cases hneg : normWeight r.ignore_vote_weight w < 0
    · simp only [normWeight] at hneg
      simp [normWeight, hneg, votesFor, RoleRequest.update_usercount, hy, hn]
    · simp only [normWeight] at hneg
      simp [normWeight, hneg, votesFor, RoleRequest.update_usercount, hy, hn]
  unfold RoleRequest.vote_or_change
  by_cases hv : r.has_voted v = true
  · simp only [hv, if_true]
    exact base _ (filter_ne_then_eq_nil _ v) (filter_ne_then_eq_nil _ v) rfl
  · simp only [hv, if_false]
    have habs : ∀ p ∈ r.yes_votes ++ r.no_votes, (p.1 == v) = false := by
      intro p hp
      cases hb : (p.1 == v) with
      | false => rfl
      | true =>
        exfalso
        apply hv
        unfold RoleRequest.has_voted
        exact List.any_eq_true.mpr ⟨p, hp, hb⟩
    refine base r ?_ ?_ rfl
    · rw [List.filter_eq_nil_iff]
      intro a ha
      simp [habs a (List.mem_append.mpr (Or.inl ha))]
    · rw [List.filter_eq_nil_iff]
      intro a ha
      simp [habs a (List.mem_append.mpr (Or.inr ha))]

/-- `vote_or_change` never changes the ignore-vote-weight flag. -/
lemma ignore_vote_or_change (r : RoleRequest) (v w : Int) :
    (r.vote_or_change v w).ignore_vote_weight = r.ignore_vote_weight := by
  unfold RoleRequest.vote_or_change RoleRequest.vote RoleRequest.update_usercount
  cases hig : r.ignore_vote_weight <;>
    by_cases hv : r.has_voted v = true <;>
    by_cases hw : w < 0 <;>
    simp [hig, hv, hw]

/-- Nor does a whole sequence of them. -/
lemma ignore_foldl_vote_or_change (r : RoleRequest) (v : Int) (ws : List Int) :
    (ws.foldl (fun acc u => acc.vote_or_change v u) r).ignore_vote_weight
      = r.ignore_vote_weight := by
  induction ws generalizing r with
  | nil => rfl
  | cons w t ih => rw [List.foldl_cons, ih, ignore_vote_or_change]

/-- C4: after any nonempty sequence of `vote_or_change` calls by one
voter (written `ws ++ [w]`), the ballots hold exactly one entry for that
voter, in the ballot and with the weight determined by the last call
alone: vote replacement, not accumulation. -/
theorem vote_or_change_last_call_wins (r : RoleRequest) (v : Int) (ws : List Int) (w : Int) :
    votesFor ((ws ++ [w]).foldl (fun acc u => acc.vote_or_change v u) r) v =
      (if normWeight r.ignore_vote_weight w < 0
       then ([], [(v, normWeight r.ignore_vote_weight w * -1)])
       else ([(v, normWeight r.ignore_vote_weight w)], [])) := by
  rw [List.foldl_append]
  simp only [List.foldl_cons, List.foldl_nil]
  rw [votesFor_vote_or_change, ignore_foldl_vote_or_change]

/-- Concrete request used as a witness input: a fresh Adept request. -/
def reqAdept : RoleRequest :=
  { user_id := 1, thread_id := 2, title := "Adept please", end_time := 100,
    bot_message_id := none, role := "Adept",
    yes_votes := [], no_votes := [],
    feedback := [], num_users := 0, veto := none,
    ignore_vote_weight := false, threshold := mkRat 5 10, closed := false }

/-- Witness for C4: voter 7 casts yes with weight 3 then no with weight 2
on a fresh Adept request; only the last vote remains and the tally is
(0, 2). -/
theorem vote_or_change_last_call_wins_witness :
    votesFor ((([3] : List Int) ++ [-2]).foldl
        (fun (acc : RoleRequest) u => acc.vote_or_change 7 u) reqAdept) 7 = ([], [(7, 2)])
    ∧ ((([3] : List Int) ++ [-2]).foldl
        (fun (acc : RoleRequest) u => acc.vote_or_change 7 u) reqAdept).get_votes = (0, 2) := by
  constructor
  · have h := vote_or_change_last_call_wins reqAdept 7 [3] (-2)
    norm_num [normWeight, reqAdept] at h
    exact h
  · decide

/-- The two ballot-mutating operations quantified over by the invariant
claim: `vote_or_change` and `remove_vote`. -/
inductive BallotOp where
  | cast (voter weight : Int)
  | cancel (voter : Int)

/-- Apply one ballot operation to a request. -/
def applyOp (r : RoleRequest) : BallotOp → RoleRequest
  | BallotOp.cast v w => r.vote_or_change v w
  | BallotOp.cancel v => r.remove_vote v

/-- All voter ids across both ballots, in ballot order. -/
def voterList (r : RoleRequest) : List Int :=
  (r.yes_votes ++ r.no_votes).map (fun p => p.1)

/-- A freshly constructed request has empty ballots and zero count. -/
lemma create_fresh (u i : Int) (title : String) (t : Int) (ρ : Option String)
    (r : RoleRequest) (h : RoleRequest.create u i title t ρ = Except.ok r) :
    r.yes_votes = [] ∧ r.no_votes = [] ∧ r.num_users = 0 := by
  unfold RoleRequest.create at h
  dsimp only at h
  split at h
  · exact Except.noConfusion h
  · split at h
    · exact Except.noConfusion h
    · cases h
      exact ⟨rfl, rfl, rfl⟩

/-- Filtering a voter out leaves that voter absent from the projection. -/
lemma not_mem_map_fst_filter (l : List (Int × Int)) (v : Int) :
    v ∉ (l.filter (fun p => p.1 != v)).map (fun p => p.1) := by
  intro h
  rcases List.mem_map.mp h with ⟨p, hp, hpv⟩
  have h2 := (List.mem_filter.mp hp).2
  rw [hpv] at h2
  simp at h2

/-- A voter who has not voted is absent from the voter list. -/
lemma not_mem_voterList_of_not_has_voted (r : RoleRequest) (v : Int)
    (h : ¬ r.has_voted v = true) : v ∉ voterList r := by
  intro hm
  apply h
  rcases List.mem_map.mp hm with ⟨p, hp, hpv⟩
  unfold RoleRequest.has_voted
  exact List.any_eq_true.mpr ⟨p, hp, by simp [hpv]⟩

/-- Inserting a fresh element between two lists keeps them duplicate-free. -/
lemma nodup_insert_one (A B : List Int) (v : Int)
    (h : (A ++ B).Nodup) (hA : v ∉ A) (hB : v ∉ B) : (A ++ v :: B).Nodup := by
  rw [List.nodup_middle]
  exact List.nodup_cons.mpr ⟨fun hm => (List.mem_append.mp hm).elim hA hB, h⟩

/-- `vote` keeps the voter list duplicate-free when the voter is fresh. -/
lemma nodup_voterList_vote (r1 : RoleRequest) (v w : Int)
    (hnd : (voterList r1).Nodup) (hnm : v ∉ voterList r1) :
    (voterList (r1.vote v w)).Nodup := by
  have hsplit : voterList r1
      = r1.yes_votes.map (fun p => p.1) ++ r1.no_votes.map (fun p => p.1) := by
    simp [voterList]
  rw [hsplit] at hnd hnm
  have hA : v ∉ r1.yes_votes.map (fun p => p.1) :=
    fun h => hnm (List.mem_append.mpr (Or.inl h))
  have hB : v ∉ r1.no_votes.map (fun p => p.1) :=
    fun h => hnm (List.mem_append.mpr (Or.inr h))
  unfold RoleRequest.vote RoleRequest.update_usercount
  dsimp only
  by_cases hneg :
      (if r1.ignore_vote_weight = true then (if w < 0 then (-1 : Int) else 1) else w) < 0
  · simp only [hneg, if_true, voterList, List.map_append, List.map_cons, List.map_nil]
    rw [← List.append_assoc]
    exact nodup_insert_one
      (r1.yes_votes.map (fun p => p.1) ++ r1.no_votes.map (fun p => p.1)) [] v
      (by simpa using hnd)
      (fun h => (List.mem_append.mp h).elim hA hB) (by simp)
  · simp only [hneg, if_false, voterList, List.map_append, List.map_cons, List.map_nil]
    rw [List.append_assoc]
    exact nodup_insert_one
      (r1.yes_votes.map (fun p => p.1)) (r1.no_votes.map (fun p => p.1)) v hnd hA hB

/-- The duplicate-free voter list survives `vote_or_change`. -/
lemma nodup_voterList_vote_or_change (r : RoleRequest) (v w : Int)
    (hnd : (voterList r).Nodup) : (voterList (r.vote_or_change v w)).Nodup := by
  unfold RoleRequest.vote_or_change
  dsimp only
  by_cases hv : r.has_voted v = true
  · simp only [hv, if_true]
    apply nodup_voterList_vote
    · apply List.Nodup.sublist ?_ hnd
      unfold voterList
      apply List.Sublist.map
      exact List.Sublist.append (List.filter_sublist _) (List.filter_sublist _)
    · intro hm
      unfold voterList at hm
      rw [List.map_append] at hm
      exact (List.mem_append.mp hm).elim
        (not_mem_map_fst_filter r.yes_votes v) (not_mem_map_fst_filter r.no_votes v)
  · simp only [hv, if_false]
    exact nodup_voterList_vote r v w hnd (not_mem_voterList_of_not_has_voted r v hv)

/-- The duplicate-free voter list survives `remove_vote`. -/
lemma nodup_voterList_remove_vote (r : RoleRequest) (v : Int)
    (hnd : (voterList r).Nodup) : (voterList (r.remove_vote v)).Nodup := by
  unfold RoleRequest.remove_vote RoleRequest.update_usercount
  apply List.Nodup.sublist ?_ hnd
  unfold voterList
  apply List.Sublist.map
  exact List.Sublist.append (List.filter_sublist _) (List.filter_sublist _)

/-- Every ballot operation re-derives `num_users` from the ballots. -/
lemma num_users_after_op (r : RoleRequest) (op : BallotOp) :
    (applyOp r op).num_users
      = (applyOp r op).yes_votes.length + (applyOp r op).no_votes.length := by
  cases op with
  | cast v w =>
    unfold applyOp RoleRequest.vote_or_change RoleRequest.vote RoleRequest.update_usercount
    cases hig : r.ignore_vote_weight <;>
      by_cases hv : r.has_voted v = true <;>
      by_cases hw : w < 0 <;>
      simp [hig, hv, hw]
  | cancel v => rfl

/-- Folding operations preserves the duplicate-free voter list. -/
lemma foldl_nodup (r : RoleRequest) (ops : List BallotOp)
    (h : (voterList r).Nodup) : (voterList (ops.foldl applyOp r)).Nodup := by
  induction ops generalizing r with
  | nil => exact h
  | cons op t ih =>
    rw [List.foldl_cons]
    apply ih
    cases op with
    | cast v w => exact nodup_voterList_vote_or_change r v w h
    | cancel v => exact nodup_voterList_remove_vote r v h

/-- Folding operations preserves the count bookkeeping. -/
lemma foldl_num_users (r : RoleRequest)
    (h : r.num_users = r.yes_votes.length + r.no_votes.length) (ops : List BallotOp) :
    (ops.foldl applyOp r).num_users
      = (ops.foldl applyOp r).yes_votes.length + (ops.foldl applyOp r).no_votes.length := by
  induction ops generalizing r with
  | nil => exact h
  | cons op t ih =>
    rw [List.foldl_cons]
    exact ih _ (num_users_after_op r op)

/-- C6: from a freshly constructed request, after any sequence of
`vote_or_change` / `remove_vote` operations, every voter appears at most
once across both ballots, and `num_users` equals both the total ballot
length and the number of distinct voters present. -/
theorem ballot_invariant (u i : Int) (title : String) (t : Int) (ρ : Option String)
    (r0 : RoleRequest) (hcreate : RoleRequest.create u i title t ρ = Except.ok r0)
    (ops : List BallotOp) :
    (voterList (ops.foldl applyOp r0)).Nodup
    ∧ (ops.foldl applyOp r0).num_users
        = (ops.foldl applyOp r0).yes_votes.length + (ops.foldl applyOp r0).no_votes.length
    ∧ (ops.foldl applyOp r0).num_users
        = (voterList (ops.foldl applyOp r0)).dedup.length := by
  obtain ⟨hy, hn, hc⟩ := create_fresh u i title t ρ r0 hcreate
  have h0 : (voterList r0).Nodup := by simp [voterList, hy, hn]
  have hnd := foldl_nodup r0 ops h0
  have hnum := foldl_num_users r0 (by rw [hy, hn, hc]; rfl) ops
  refine ⟨hnd, hnum, ?_⟩
  rw [List.dedup_eq_self.mpr hnd]
  rw [hnum]
  simp [voterList]

/-- Concrete request used as a witness input: what
`create 1 2 "Gimme Expert" 9 none` returns. -/
def reqExpert : RoleRequest :=
  { user_id := 1, thread_id := 2, title := "Gimme Expert", end_time := 9,
    bot_message_id := none, role := "Expert",
    yes_votes := [], no_votes := [],
    feedback := [], num_users := 0, veto := none,
    ignore_vote_weight := false, threshold := mkRat 75 100, closed := false }

/-- Concrete operation sequence used by the C6 witness. -/
def opsW : List BallotOp :=
  [BallotOp.cast 7 3, BallotOp.cast 8 (-2), BallotOp.cancel 7, BallotOp.cast 7 (-1)]

/-- Witness for C6 at a concrete creation and operation sequence. -/
theorem ballot_invariant_witness :
    (voterList (opsW.foldl applyOp reqExpert)).Nodup
    ∧ (opsW.foldl applyOp reqExpert).num_users
        = (opsW.foldl applyOp reqExpert).yes_votes.length
          + (opsW.foldl applyOp reqExpert).no_votes.length
    ∧ (opsW.foldl applyOp reqExpert).num_users
        = (voterList (opsW.foldl applyOp reqExpert)).dedup.length :=
  ballot_invariant 1 2 "Gimme Expert" 9 none reqExpert rfl opsW

/-- Dict assignment then lookup at the same key yields the new value. -/
lemma dget_dset {α : Type} (d : List (Int × α)) (k : Int) (v : α) :
    dget (dset d k v) k = some v := by
  unfold dget dset
  by_cases h : (d.find? (fun p => p.1 == k)).isSome
  · rw [if_pos h]
    induction d with
    | nil => simp at h
    | cons a t ih =>
      cases ha : (a.1 == k) with
      | true =>
        simp only [List.map_cons, ha, if_true]
        simp [List.find?]
      | false =>
        simp only [List.map_cons, ha, Bool.false_eq_true, if_false]
        simp only [List.find?, ha] at h ⊢
        exact ih h
  · rw [if_neg h]
    have hnone : (d.find? (fun p => p.1 == k)) = none :=
      Option.not_isSome_iff_eq_none.mp h
    rw [List.find?_append, hnone]
    simp [List.find?]

/-- Dict deletion then lookup at the same key yields nothing. -/
lemma dget_ddel {α : Type} (d : List (Int × α)) (k : Int) :
    dget (ddel d k) k = none := by
  unfold dget ddel
  have hnone : (d.filter (fun p => p.1 != k)).find? (fun p => p.1 == k) = none := by
    rw [List.find?_eq_none]
    intro x hx
    have h2 := (List.mem_filter.mp hx).2
    simp at h2 ⊢
    exact h2
  rw [hnone]
  rfl

/-- Input for the C3 counterexample: a request with `closed = false`,
populated ballots and feedback, and deadline 100. -/
def reqRoundTrip : RoleRequest :=
  { user_id := 3, thread_id := 4, title := "Adept role request", end_time := 100,
    bot_message_id := some 11, role := "Adept",
    yes_votes := [(5, 2)], no_votes := [(6, 1)],
    feedback := [(6, "needs work")], num_users := 2, veto := none,
    ignore_vote_weight := false, threshold := mkRat 5 10, closed := false }

/-- C3 counterexample: the round trip is not the identity on `closed`.
Serializing `reqRoundTrip` (closed, deadline 100) and deserializing at
clock 50 yields `closed = true`, because from_dict line 76 replaces a
falsy stored flag by `end_time > now`. -/
theorem from_dict_changes_closed_counterexample :
    (RoleRequest.from_dict reqRoundTrip.to_dict 50).toOption.map (fun r => r.closed)
      = some true
    ∧ reqRoundTrip.closed = false :=
  ⟨rfl, rfl⟩

/-- C3 amended: for a request whose role-derived fields agree with the
configuration (as every request built by this program does), the round
trip reproduces every field bit-for-bit — `participantCount` included,
which is restored from the record, not recomputed — except `closed`,
which comes back as `closed OR (end_time > now)`. -/
theorem from_dict_round_trip (r : RoleRequest) (now : Int)
    (hrole : r.role ≠ "")
    (hth : thresholdFor r.role = some r.threshold)
    (hig : IGNORE_VOTE_WEIGHT.contains r.role = r.ignore_vote_weight) :
    RoleRequest.from_dict r.to_dict now
      = Except.ok { r with closed := r.closed || decide (r.end_time > now) } := by
  unfold RoleRequest.from_dict RoleRequest.to_dict RoleRequest.create
  dsimp only
  rw [if_neg hrole]
  dsimp only
  rw [hth]
  dsimp only
  simp only [Except.ok.injEq]
  rw [← hig]

/-- Witness for the C3 amended theorem: at clock 200 (past the deadline
100) the stored `closed = false` round-trips unchanged. -/
theorem from_dict_round_trip_witness :
    RoleRequest.from_dict reqRoundTrip.to_dict 200
      = Except.ok { reqRoundTrip with
          closed := reqRoundTrip.closed || decide (reqRoundTrip.end_time > (200 : Int)) } :=
  from_dict_round_trip reqRoundTrip 200 (by decide) (by decide) (by decide)

/-- Request stored first in the C5 counterexample registry, with a live
yes vote. -/
def reqFirst : RoleRequest :=
  { user_id := 1, thread_id := 7, title := "Gimme Adept", end_time := 100,
    bot_message_id := none, role := "Adept", yes_votes := [(9, 2)], no_votes := [],
    feedback := [], num_users := 1, veto := none, ignore_vote_weight := false,
    threshold := mkRat 5 10, closed := false }

/-- The request a second `add_request` call with the same thread id 7
constructs. -/
def reqSecond : RoleRequest :=
  { user_id := 2, thread_id := 7, title := "Gimme Expert", end_time := 200,
    bot_message_id := none, role := "Expert", yes_votes := [], no_votes := [],
    feedback := [], num_users := 0, veto := none, ignore_vote_weight := false,
    threshold := mkRat 75 100, closed := false }

/-- A registry whose active map already holds id 7. -/
def mgrDup : RequestsManager := { requests := [(7, reqFirst)], closed_requests := [] }

/-- C5 counterexample: adding a request under an id that is already
active does not fail with any duplicate error — it succeeds and replaces
the in-flight request (ballots included) with the new one. -/
theorem add_request_duplicate_overwrites_counterexample :
    mgrDup.add_request 2 7 "Gimme Expert" 200 none
      = Except.ok ({ requests := [(7, reqSecond)], closed_requests := [] }, 7)
    ∧ reqSecond ≠ reqFirst := by
  constructor
  · rfl
  · decide

/-- C5 amended: whenever construction succeeds, `add_request` returns
successfully and stores the new request under its thread id with plain
dict assignment, overwriting any active request already there; the code
has no duplicate-id check. -/
theorem add_request_overwrites_active (m : RequestsManager) (u i : Int) (title : String)
    (t : Int) (ρ : Option String) (req : RoleRequest)
    (hc : RoleRequest.create u i title t ρ = Except.ok req) :
    m.add_request u i title t ρ
      = Except.ok ({ m with requests := dset m.requests req.thread_id req }, req.thread_id)
    ∧ dget (dset m.requests req.thread_id req) req.thread_id = some req := by
  constructor
  · unfold RequestsManager.add_request
    rw [hc]
  · exact dget_dset m.requests req.thread_id req

/-- Witness for the C5 amended theorem at the concrete duplicate id 7. -/
theorem add_request_overwrites_active_witness :
    mgrDup.add_request 2 7 "Gimme Expert" 200 (some "Expert")
      = Except.ok ({ mgrDup with
          requests := dset mgrDup.requests reqSecond.thread_id reqSecond },
          reqSecond.thread_id)
    ∧ dget (dset mgrDup.requests reqSecond.thread_id reqSecond) reqSecond.thread_id
        = some reqSecond :=
  add_request_overwrites_active mgrDup 2 7 "Gimme Expert" 200 (some "Expert") reqSecond rfl

/-- C9: closing an active request flags it closed, appends it to the end
of the closed history for its id (creating the history if absent),
removes it from the active map — so `get_request` then returns the
not-found sentinel while `get_closed_requests` ends in the closed
request. -/
theorem close_request_archives (m : RequestsManager) (i : Int) (req : RoleRequest)
    (h : dget m.requests i = some req) :
    ∃ m2, m.close_request i = Except.ok m2
      ∧ m2.get_request i = none
      ∧ m2.get_closed_requests i
          = some ((dget m.closed_requests i).getD [] ++ [{ req with closed := true }]) := by
  unfold RequestsManager.close_request
  rw [h]
  dsimp only
  refine ⟨_, rfl, ?_, ?_⟩
  · unfold RequestsManager.get_request
    exact dget_ddel m.requests i
  · unfold RequestsManager.get_closed_requests
    rw [dget_dset]
    cases hd : dget m.closed_requests i with
    | none => simp [hd]
    | some l => simp [hd]

/-- A registry with the single active request id 7 and no history. -/
def mgrClose : RequestsManager := { requests := [(7, reqFirst)], closed_requests := [] }

/-- Witness for C9: closing id 7 in `mgrClose`. -/
theorem close_request_archives_witness :
    ∃ m2, mgrClose.close_request 7 = Except.ok m2
      ∧ m2.get_request 7 = none
      ∧ m2.get_closed_requests 7
          = some ((dget mgrClose.closed_requests 7).getD []
              ++ [{ reqFirst with closed := true }]) :=
  close_request_archives mgrClose 7 reqFirst rfl

end RoleVoting
